import Mathlib

/-!
Shallow embedding of the chat-support session routing core
(server chat module `part_009` plus `server/storage.ts` MemStorage).

Conventions:
* JavaScript `Map` objects become association lists (`List (κ × α)`) that keep
  insertion order: `set` on an existing key replaces the value in place,
  `set` on a fresh key appends, `delete` removes.
* `Date` values become `Nat` ticks; every operation that calls `Date.now()` /
  `new Date()` takes the current tick `now` as an explicit argument.
* Numeric user ids are `Int` (anonymous customers get negative ids),
  session and message ids are `Nat`.
* Thrown exceptions become an `Except ChatError` result component; because the
  TS state is module-global, each operation returns the mutated state even on
  the error path (mutations made before a throw persist).
* Outbound WebSocket sends become an explicit `List Delivery`; `socket.send`
  guarded by `readyState === OPEN` delivers only when the socket is open.
  The best-effort Redis publish (failures swallowed, never observable in
  state or in direct delivery) is not modelled.
-/

/-- Association-list lookup: first entry with the key, as JS `Map.get`. -/
def alistLookup {α : Type} {β : Type} [DecidableEq α] : List (α × β) → α → Option β
  | [], _ => none
  | (a, b) :: t, k => if a = k then some b else alistLookup t k

/-- JS `Map.set`: replace in place when the key is present, else append. -/
def alistInsert {α : Type} {β : Type} [DecidableEq α] (l : List (α × β)) (k : α) (v : β) :
    List (α × β) :=
  if (alistLookup l k).isSome then
    l.map (fun p => if p.1 = k then (k, v) else p)
  else
    l ++ [(k, v)]

/-- JS `Map.delete`: remove the entry with the key. -/
def alistErase {α : Type} {β : Type} [DecidableEq α] : List (α × β) → α → List (α × β)
  | [], _ => []
  | (a, b) :: t, k => if a = k then alistErase t k else (a, b) :: alistErase t k

/-- A user record (schema fields that the core reads or writes; the display
attributes carried alongside in the schema do not affect control flow). -/
structure User where
  id : Int
  role : String
  status : String
deriving Repr, DecidableEq

/-- A chat session record (`chat_sessions` schema row). -/
structure ChatSession where
  id : Nat
  customerId : Int
  agentId : Option Int
  status : String
  startedAt : Nat
  endedAt : Option Nat
deriving Repr, DecidableEq

/-- Insert shape for `createChatSession` (`InsertChatSession`). -/
structure InsertChatSession where
  customerId : Int
  agentId : Option Int
  status : String
deriving Repr, DecidableEq

/-- A message record (`messages` schema row). -/
structure Message where
  id : Nat
  sessionId : Nat
  senderId : Int
  content : String
  timestamp : Nat
  isRead : Bool
deriving Repr, DecidableEq

/-- Insert shape for `createMessage` (`InsertMessage`). -/
structure InsertMessage where
  sessionId : Nat
  senderId : Int
  content : String
deriving Repr, DecidableEq

/-- The partial-update argument of `updateChatSession`
(`Partial<InsertChatSession> & { endedAt?: Date }`): `none` means the key is
absent from the update object, `some` that it is present with that value. -/
structure SessionUpdate where
  agentId : Option Int
  status : Option String
  endedAt : Option Nat
deriving Repr, DecidableEq

/-- Errors thrown by the embedded operations. -/
inductive ChatError where
  /-- `throw new Error("Session not found")` in the chat module. -/
  | sessionNotFound
  /-- `throw new Error("Chat session with id ... not found")` in MemStorage. -/
  | storeSessionNotFound (id : Nat)
deriving Repr, DecidableEq

/-- `MemStorage` state: JS `Map`s plus the id counters. -/
structure Storage where
  users : List (Int × User)
  chatSessions : List (Nat × ChatSession)
  messages : List (Nat × Message)
  currentUserId : Int
  currentSessionId : Nat
  currentMessageId : Nat
deriving Repr, DecidableEq

namespace Storage

/-- `MemStorage.updateUserStatus`. -/
def updateUserStatus (st : Storage) (userId : Int) (status : String) :
    Option User × Storage :=
  match alistLookup st.users userId with
  | none => (none, st)
  | some u =>
    let updatedUser : User := { u with status := status }
    (some updatedUser, { st with users := alistInsert st.users userId updatedUser })

/-- `MemStorage.createChatSession` (`const id = this.currentSessionId++`). -/
def createChatSession (st : Storage) (data : InsertChatSession) (now : Nat) :
    ChatSession × Storage :=
  let id := st.currentSessionId
  let chatSession : ChatSession :=
    { id := id, customerId := data.customerId, agentId := data.agentId,
      status := data.status, startedAt := now, endedAt := none }
  (chatSession,
   { st with chatSessions := alistInsert st.chatSessions id chatSession,
             currentSessionId := id + 1 })

/-- `MemStorage.getChatSession`. -/
def getChatSession (st : Storage) (id : Nat) : Option ChatSession :=
  alistLookup st.chatSessions id

/-- `MemStorage.getChatSessionsByCustomerId`. -/
def getChatSessionsByCustomerId (st : Storage) (customerId : Int) : List ChatSession :=
  (st.chatSessions.map Prod.snd).filter (fun s => s.customerId == customerId)

/-- `MemStorage.getChatSessionsByAgentId` (filters out ended sessions). -/
def getChatSessionsByAgentId (st : Storage) (agentId : Int) : List ChatSession :=
  (st.chatSessions.map Prod.snd).filter
    (fun s => s.agentId == some agentId && s.status != "ended")

/-- `MemStorage.getChatSessionsByStatus`. -/
def getChatSessionsByStatus (st : Storage) (status : String) : List ChatSession :=
  (st.chatSessions.map Prod.snd).filter (fun s => s.status == status)

/-- Spread `{ ...session, ...data }`: keys present in the update win. -/
def applyUpdate (s : ChatSession) (d : SessionUpdate) : ChatSession :=
  { s with
    agentId := match d.agentId with | some a => some a | none => s.agentId,
    status := d.status.getD s.status,
    endedAt := match d.endedAt with | some t => some t | none => s.endedAt }

/-- `MemStorage.updateChatSession`: throws when the id is unknown. -/
def updateChatSession (st : Storage) (id : Nat) (d : SessionUpdate) :
    Except ChatError (ChatSession × Storage) :=
  match alistLookup st.chatSessions id with
  | none => .error (.storeSessionNotFound id)
  | some s =>
    let updatedSession := applyUpdate s d
    .ok (updatedSession,
         { st with chatSessions := alistInsert st.chatSessions id updatedSession })

/-- `MemStorage.createMessage` (`const id = this.currentMessageId++`). -/
def createMessage (st : Storage) (m : InsertMessage) (now : Nat) :
    Message × Storage :=
  let id := st.currentMessageId
  let newMessage : Message :=
    { id := id, sessionId := m.sessionId, senderId := m.senderId,
      content := m.content, timestamp := now, isRead := false }
  (newMessage,
   { st with messages := alistInsert st.messages id newMessage,
             currentMessageId := id + 1 })

/-- Stable insertion into a timestamp-ascending list. -/
def insertByTs (m : Message) : List Message → List Message
  | [] => [m]
  | h :: t => if m.timestamp < h.timestamp then m :: h :: t else h :: insertByTs m t

/-- `MemStorage.getMessagesBySessionId`: filter by session, sort ascending by
timestamp. -/
def getMessagesBySessionId (st : Storage) (sessionId : Nat) : List Message :=
  ((st.messages.map Prod.snd).filter (fun m => m.sessionId == sessionId)).foldl
    (fun acc m => insertByTs m acc) []

end Storage

/-- A live transport handle: identity plus `readyState === OPEN`. -/
structure Socket where
  id : Nat
  isOpen : Bool
deriving Repr, DecidableEq

/-- Connection Registry entry (`interface Connection` in the chat module). -/
structure Connection where
  userId : Int
  role : String
  socket : Socket
deriving Repr, DecidableEq

/-- The `data` field of an outbound WebSocket envelope, one constructor per
payload shape the chat module sends. -/
inductive WsData where
  /-- initial `CONNECT` status payload -/
  | connectData (userId : Int) (role : String) (status : String)
  /-- `CHAT_HISTORY` to a customer: one session and its messages -/
  | chatHistory (session : ChatSession) (messages : List Message)
  /-- `CHAT_HISTORY` to an agent: waiting and active session lists -/
  | agentHistory (waitingSessions activeSessions : List ChatSession)
  /-- `CHAT_MESSAGE`: the stored message plus a session snapshot -/
  | chatMessage (message : Message) (session : ChatSession)
  /-- `SESSION_ASSIGNED`: a session snapshot -/
  | sessionAssigned (session : ChatSession)
  /-- `TYPING`: sessionId, sender, flag -/
  | typing (sessionId : Nat) (userId : Int) (isTyping : Bool)
deriving Repr, DecidableEq

/-- Outbound WebSocket envelope `{ type, data, timestamp }`. -/
structure WsMessage where
  type : String
  data : WsData
  timestamp : Nat
deriving Repr, DecidableEq

namespace messageTypes

def CONNECT : String := "connect"
def CHAT_MESSAGE : String := "chat_message"
def TYPING : String := "typing"
def CHAT_HISTORY : String := "chat_history"
def SESSION_ASSIGNED : String := "session_assigned"

end messageTypes

/-- One delivered WebSocket send: the registry user it was resolved for, the
socket it went to, and the envelope. -/
structure Delivery where
  toUser : Int
  sockId : Nat
  msg : WsMessage
deriving Repr, DecidableEq

/-- Module-global state of the chat module: the storage singleton plus the
three top-level maps `connections`, `sessions`, `userSessions`. -/
structure ServerState where
  store : Storage
  connections : List (Int × Connection)
  sessions : List (Nat × ChatSession)
  userSessions : List (Int × List Nat)
deriving Repr, DecidableEq

/-- `sendMessage(socket, message)`: sends only when the socket is open. -/
def sendViaSocket (toUser : Int) (sock : Socket) (m : WsMessage) : List Delivery :=
  if sock.isOpen then [⟨toUser, sock.id, m⟩] else []

/-- The session fetch idiom `sessions.get(sessionId) || await storage.getChatSession(sessionId)`. -/
def fetchSession (st : ServerState) (sessionId : Nat) : Option ChatSession :=
  (alistLookup st.sessions sessionId).orElse (fun _ => st.store.getChatSession sessionId)

/-- `sendToSessionParticipants`: resolve the session (cache first, then store),
send to the customer's connection and, when `session.agentId` is set and
truthy, to the agent's connection; a missing session is caught internally and
produces no sends. -/
def sendToSessionParticipants (st : ServerState) (sessionId : Nat) (m : WsMessage) :
    List Delivery :=
  match fetchSession st sessionId with
  | none => []
  | some session =>
    let toCustomer :=
      match alistLookup st.connections session.customerId with
      | some c => sendViaSocket session.customerId c.socket m
      | none => []
    let toAgent :=
      match session.agentId with
      | some agentId =>
        if agentId ≠ 0 then
          match alistLookup st.connections agentId with
          | some c => sendViaSocket agentId c.socket m
          | none => []
        else []
      | none => []
    toCustomer ++ toAgent

/-- `broadcastToAgents`: send to every registered connection with role
`"agent"` and an open socket, in registry order. -/
def broadcastToAgents (st : ServerState) (m : WsMessage) : List Delivery :=
  (st.connections.filter (fun p => p.2.role == "agent" && p.2.socket.isOpen)).map
    (fun p => ⟨p.1, p.2.socket.id, m⟩)

/-- The `userSessions` bookkeeping idiom: ensure the key exists, then push the
session id when it is not already present. -/
def pushUserSession (us : List (Int × List Nat)) (userId : Int) (sessionId : Nat) :
    List (Int × List Nat) :=
  let l := (alistLookup us userId).getD []
  alistInsert us userId (if sessionId ∈ l then l else l ++ [sessionId])

/-- The create-a-new-session flow duplicated in both branches of
`handleCustomerConnection`: create and persist a `waiting` session, cache it,
record it under the customer, broadcast `SESSION_ASSIGNED` to all agents, and
send the customer a `CHAT_HISTORY` with the new session and empty history. -/
def newCustomerSessionFlow (now : Nat) (userId : Int) (sock : Socket) (st : ServerState) :
    ServerState × List Delivery :=
  let (session, store1) :=
    st.store.createChatSession ⟨userId, none, "waiting"⟩ now
  let st1 : ServerState :=
    { st with store := store1,
              sessions := alistInsert st.sessions session.id session }
  let l := (alistLookup st1.userSessions userId).getD []
  let st2 : ServerState :=
    { st1 with userSessions := alistInsert st1.userSessions userId (l ++ [session.id]) }
  let broadcast :=
    broadcastToAgents st2 ⟨messageTypes.SESSION_ASSIGNED, .sessionAssigned session, now⟩
  let toCustomer :=
    sendViaSocket userId sock ⟨messageTypes.CHAT_HISTORY, .chatHistory session [], now⟩
  (st2, broadcast ++ toCustomer)

/-- `handleCustomerConnection`: resume the first non-ended session with its
history, or create a new waiting session (both the empty-list branch and the
all-ended branch run the identical creation flow). -/
def handleCustomerConnection (now : Nat) (userId : Int) (sock : Socket) (st : ServerState) :
    ServerState × List Delivery :=
  let customerSessions := st.store.getChatSessionsByCustomerId userId
  if customerSessions.isEmpty then
    newCustomerSessionFlow now userId sock st
  else
    match customerSessions.find? (fun s => s.status != "ended") with
    | some activeSession =>
      let messages := st.store.getMessagesBySessionId activeSession.id
      let toCustomer :=
        sendViaSocket userId sock
          ⟨messageTypes.CHAT_HISTORY, .chatHistory activeSession messages, now⟩
      let st1 : ServerState :=
        { st with sessions := alistInsert st.sessions activeSession.id activeSession }
      ({ st1 with userSessions := pushUserSession st1.userSessions userId activeSession.id },
       toCustomer)
    | none => newCustomerSessionFlow now userId sock st

/-- `handleAgentConnection`: send the waiting queue and this agent's active
sessions, then cache the active sessions and record them under the agent. -/
def handleAgentConnection (now : Nat) (userId : Int) (sock : Socket) (st : ServerState) :
    ServerState × List Delivery :=
  let waitingSessions := st.store.getChatSessionsByStatus "waiting"
  let activeSessions := st.store.getChatSessionsByAgentId userId
  let toAgent :=
    sendViaSocket userId sock
      ⟨messageTypes.CHAT_HISTORY, .agentHistory waitingSessions activeSessions, now⟩
  let st1 := activeSessions.foldl
    (fun acc session =>
      { acc with sessions := alistInsert acc.sessions session.id session,
                 userSessions := pushUserSession acc.userSessions userId session.id })
    st
  (st1, toAgent)

/-- `handleConnection`: register (replacing any previous entry for the user),
send the initial `CONNECT` status, then run the role-specific handler. -/
def handleConnection (now : Nat) (sock : Socket) (userId : Int) (role : String)
    (st : ServerState) : ServerState × List Delivery :=
  let st1 : ServerState :=
    { st with connections := alistInsert st.connections userId ⟨userId, role, sock⟩ }
  let initial :=
    sendViaSocket userId sock
      ⟨messageTypes.CONNECT, .connectData userId role "online", now⟩
  if role = "customer" then
    let (st2, d) := handleCustomerConnection now userId sock st1
    (st2, initial ++ d)
  else if role = "agent" then
    let (st2, d) := handleAgentConnection now userId sock st1
    (st2, initial ++ d)
  else (st1, initial)

/-- `processChatMessage`: fetch the session (throwing `sessionNotFound` when
both cache and store miss), persist the message, auto-assign when a connected
agent writes into a `waiting` session, then send the stored message together
with the session snapshot read *before* the transition to both participants. -/
def processChatMessage (now : Nat) (userId : Int) (sessionId : Nat) (content : String)
    (st : ServerState) : Except ChatError Message × ServerState × List Delivery :=
  match fetchSession st sessionId with
  | none => (.error .sessionNotFound, st, [])
  | some session =>
    let (storedMessage, store1) := st.store.createMessage ⟨sessionId, userId, content⟩ now
    let st1 : ServerState := { st with store := store1 }
    let afterAssign : Except ChatError ServerState :=
      if session.status = "waiting"
          ∧ (alistLookup st1.connections userId).map Connection.role = some "agent" then
        match store1.updateChatSession sessionId ⟨some userId, some "active", none⟩ with
        | .error e => .error e
        | .ok (updatedSession, store2) =>
          .ok { st1 with store := store2,
                         sessions := alistInsert st1.sessions sessionId updatedSession }
      else .ok st1
    match afterAssign with
    | .error e => (.error e, st1, [])
    | .ok st2 =>
      let payload : WsMessage :=
        ⟨messageTypes.CHAT_MESSAGE, .chatMessage storedMessage session, now⟩
      (.ok storedMessage, st2, sendToSessionParticipants st2 sessionId payload)

/-- `processTypingIndicator`: fetch the session (throwing when unknown),
resolve the other participant, and forward the indicator to that one
connection when it is truthy, registered, and open; no state change. -/
def processTypingIndicator (now : Nat) (userId : Int) (sessionId : Nat) (isTyping : Bool)
    (st : ServerState) : Except ChatError Unit × ServerState × List Delivery :=
  match fetchSession st sessionId with
  | none => (.error .sessionNotFound, st, [])
  | some session =>
    let recipientId : Option Int :=
      if userId = session.customerId then session.agentId else some session.customerId
    let dels :=
      match recipientId with
      | some r =>
        if r ≠ 0 then
          match alistLookup st.connections r with
          | some c =>
            sendViaSocket r c.socket ⟨messageTypes.TYPING, .typing sessionId userId isTyping, now⟩
          | none => []
        else []
      | none => []
    (.ok (), st, dels)

/-- `assignSession`: unconditionally update the session to
`{ agentId, status: "active" }` (throwing only when the store has no such
session), cache the result, record it under the agent, and notify both
participants with `SESSION_ASSIGNED`. -/
def assignSession (now : Nat) (agentId : Int) (sessionId : Nat) (st : ServerState) :
    Except ChatError ChatSession × ServerState × List Delivery :=
  match st.store.updateChatSession sessionId ⟨some agentId, some "active", none⟩ with
  | .error e => (.error e, st, [])
  | .ok (updatedSession, store1) =>
    let st1 : ServerState :=
      { st with store := store1,
                sessions := alistInsert st.sessions sessionId updatedSession }
    let st2 : ServerState :=
      { st1 with userSessions := pushUserSession st1.userSessions agentId sessionId }
    let dels := sendToSessionParticipants st2 sessionId
      ⟨messageTypes.SESSION_ASSIGNED, .sessionAssigned updatedSession, now⟩
    (.ok updatedSession, st2, dels)

/-- `endChatSession`: unconditionally update the session to
`{ status: "ended", endedAt: new Date() }` (throwing only when the store has
no such session), cache the result, and notify both participants. -/
def endChatSession (now : Nat) (sessionId : Nat) (st : ServerState) :
    Except ChatError ChatSession × ServerState × List Delivery :=
  match st.store.updateChatSession sessionId ⟨none, some "ended", some now⟩ with
  | .error e => (.error e, st, [])
  | .ok (updatedSession, store1) =>
    let st1 : ServerState :=
      { st with store := store1,
                sessions := alistInsert st.sessions sessionId updatedSession }
    let dels := sendToSessionParticipants st1 sessionId
      ⟨messageTypes.SESSION_ASSIGNED, .sessionAssigned updatedSession, now⟩
    (.ok updatedSession, st1, dels)

/-- `handleDisconnect`: delete the registry entry for the user and mark the
user's store record `offline`; chat sessions are untouched. -/
def handleDisconnect (userId : Int) (st : ServerState) : ServerState :=
  let st1 : ServerState := { st with connections := alistErase st.connections userId }
  let (_, store1) := st1.store.updateUserStatus userId "offline"
  { st1 with store := store1 }

/-! Concrete fixtures used to exercise the operations. -/

/-- An open customer-side socket. -/
def sockCust : Socket := ⟨1, true⟩

/-- An open agent-side socket. -/
def sockAgent : Socket := ⟨2, true⟩

/-- A waiting session for anonymous customer `-42`, as in the spec example. -/
def sesWaiting : ChatSession := ⟨1, -42, none, "waiting", 10, none⟩

/-- The same session after agent 7 handled and ended it. -/
def sesEnded : ChatSession := ⟨1, -42, some 7, "ended", 10, some 20⟩

/-- Store holding only the waiting session. -/
def storeWaiting : Storage := ⟨[], [(1, sesWaiting)], [], 5, 2, 1⟩

/-- Store holding only the ended session. -/
def storeEnded : Storage := ⟨[], [(1, sesEnded)], [], 5, 2, 1⟩

/-- Ended session on record, nobody connected. -/
def stateEnded : ServerState := ⟨storeEnded, [], [], []⟩

/-- Waiting session on record, customer `-42` and agent 7 both connected. -/
def stateChat : ServerState :=
  ⟨storeWaiting,
   [(-42, ⟨-42, "customer", sockCust⟩), (7, ⟨7, "agent", sockAgent⟩)], [], []⟩

/-- Waiting session on record, nobody connected. -/
def stateQuiet : ServerState := ⟨storeWaiting, [], [], []⟩

/-- `stateQuiet` after a first `endChatSession` at tick 20. -/
def stateOnceEnded : ServerState := (endChatSession 20 1 stateQuiet).2.1

/-- A fresh server with no sessions and one connected agent (id 9). -/
def stateFresh : ServerState :=
  ⟨⟨[], [], [], 5, 1, 1⟩, [(9, ⟨9, "agent", sockAgent⟩)], [], []⟩

/-- One stored message from customer `-42` in the waiting session. -/
def msgHi : Message := ⟨1, 1, -42, "hi", 11, false⟩

/-- Waiting session plus its one message; an unrelated agent is connected. -/
def stateResume : ServerState :=
  ⟨⟨[], [(1, sesWaiting)], [(1, msgHi)], 5, 2, 2⟩,
   [(9, ⟨9, "agent", sockAgent⟩)], [], []⟩

/-- Active session between customer `-42` and agent 7, both connected. -/
def stateActive : ServerState :=
  ⟨⟨[], [(1, ⟨1, -42, some 7, "active", 10, none⟩)], [], 5, 2, 1⟩,
   [(-42, ⟨-42, "customer", sockCust⟩), (7, ⟨7, "agent", sockAgent⟩)], [], []⟩

/-- Agent 7 on record as online, registered in the Connection Registry. -/
def stateAgentOnline : ServerState :=
  ⟨⟨[(7, ⟨7, "agent", "online"⟩)], [(1, sesWaiting)], [], 5, 2, 1⟩,
   [(7, ⟨7, "agent", sockAgent⟩)], [], []⟩

/-- Empty server state. -/
def stateEmpty : ServerState := ⟨⟨[], [], [], 5, 1, 1⟩, [], [], []⟩

/-- Agent 7 connects on socket 1. -/
def stateConnOld : ServerState := (handleConnection 10 ⟨1, true⟩ 7 "agent" stateEmpty).1

/-- Agent 7 reconnects on socket 2, superseding the socket-1 entry. -/
def stateConnNew : ServerState := (handleConnection 11 ⟨2, true⟩ 7 "agent" stateConnOld).1

/-- Ended session with around it the participants still connected. -/
def stateEndedConnected : ServerState :=
  ⟨storeEnded,
   [(-42, ⟨-42, "customer", sockCust⟩), (7, ⟨7, "agent", sockAgent⟩)], [], []⟩

theorem alistLookup_map_update_self {α β : Type} [DecidableEq α]
    (l : List (α × β)) (k : α) (v : β) (h : (alistLookup l k).isSome) :
    alistLookup (l.map (fun p => if p.1 = k then (k, v) else p)) k = some v := by
  induction l with
  | nil => simp [alistLookup] at h
  | cons p t ih =>
    obtain ⟨a, b⟩ := p
    by_cases hk : a = k
    · rw [List.map_cons, if_pos hk]
      simp [alistLookup]
    · rw [List.map_cons, if_neg hk]
      simp only [alistLookup, if_neg hk] at h ⊢
      exact ih h

theorem alistLookup_append_single_self {α β : Type} [DecidableEq α]
    (l : List (α × β)) (k : α) (v : β) (h : alistLookup l k = none) :
    alistLookup (l ++ [(k, v)]) k = some v := by
  induction l with
  | nil => simp [alistLookup]
  | cons p t ih =>
    obtain ⟨a, b⟩ := p
    by_cases hk : a = k
    · simp [alistLookup, if_pos hk] at h
    · rw [List.cons_append]
      simp only [alistLookup, if_neg hk] at h ⊢
      exact ih h

theorem alistLookup_insert_self {α β : Type} [DecidableEq α]
    (l : List (α × β)) (k : α) (v : β) :
    alistLookup (alistInsert l k v) k = some v := by
  unfold alistInsert
  by_cases h : (alistLookup l k).isSome
  · simp only [h, if_true]
    exact alistLookup_map_update_self l k v h
  · simp only [h, if_false, Bool.false_eq_true]
    exact alistLookup_append_single_self l k v (Option.not_isSome_iff_eq_none.mp h)

theorem alistLookup_map_update_ne {α β : Type} [DecidableEq α]
    (l : List (α × β)) (k k' : α) (v : β) (h : k' ≠ k) :
    alistLookup (l.map (fun p => if p.1 = k then (k, v) else p)) k'
      = alistLookup l k' := by
  induction l with
  | nil => simp
  | cons p t ih =>
    obtain ⟨a, b⟩ := p
    by_cases hak : a = k
    · rw [List.map_cons, if_pos hak]
      subst hak
      simp only [alistLookup, if_neg (Ne.symm h)]
      exact ih
    · rw [List.map_cons, if_neg hak]
      by_cases hak' : a = k'
      · simp only [alistLookup, if_pos hak']
      · simp only [alistLookup, if_neg hak']
        exact ih

theorem alistLookup_append_single_ne {α β : Type} [DecidableEq α]
    (l : List (α × β)) (k k' : α) (v : β) (h : k' ≠ k) :
    alistLookup (l ++ [(k, v)]) k' = alistLookup l k' := by
  induction l with
  | nil => simp [alistLookup, if_neg (Ne.symm h)]
  | cons p t ih =>
    obtain ⟨a, b⟩ := p
    rw [List.cons_append]
    by_cases hak' : a = k'
    · simp only [alistLookup, if_pos hak']
    · simp only [alistLookup, if_neg hak']
      exact ih

theorem alistLookup_insert_ne {α β : Type} [DecidableEq α]
    (l : List (α × β)) (k k' : α) (v : β) (h : k' ≠ k) :
    alistLookup (alistInsert l k v) k' = alistLookup l k' := by
  unfold alistInsert
  by_cases hs : (alistLookup l k).isSome
  · simp only [hs, if_true]
    exact alistLookup_map_update_ne l k k' v h
  · simp only [hs, if_false, Bool.false_eq_true]
    exact alistLookup_append_single_ne l k k' v h

theorem alistLookup_erase_self {α β : Type} [DecidableEq α]
    (l : List (α × β)) (k : α) :
    alistLookup (alistErase l k) k = none := by
  induction l with
  | nil => simp [alistErase, alistLookup]
  | cons p t ih =>
    obtain ⟨a, b⟩ := p
    by_cases hk : a = k
    · simp only [alistErase, if_pos hk]
      exact ih
    · simp only [alistErase, if_neg hk, alistLookup]
      exact ih

theorem alistErase_idem {α β : Type} [DecidableEq α]
    (l : List (α × β)) (k : α) :
    alistErase (alistErase l k) k = alistErase l k := by
  induction l with
  | nil => simp [alistErase]
  | cons p t ih =>
    obtain ⟨a, b⟩ := p
    by_cases hk : a = k
    · simp only [alistErase, if_pos hk]
      exact ih
    · simp only [alistErase, if_neg hk]
      rw [ih]

theorem alistLookup_erase_ne {α β : Type} [DecidableEq α]
    (l : List (α × β)) (k k' : α) (h : k' ≠ k) :
    alistLookup (alistErase l k) k' = alistLookup l k' := by
  induction l with
  | nil => simp [alistErase]
  | cons p t ih =>
    obtain ⟨a, b⟩ := p
    by_cases hk : a = k
    · subst hk
      simp only [alistErase, if_pos rfl, alistLookup, if_neg (Ne.symm h)]
      exact ih
    · by_cases hk' : a = k'
      · simp only [alistErase, if_neg hk, alistLookup, if_pos hk']
      · simp only [alistErase, if_neg hk, alistLookup, if_neg hk']
        exact ih

theorem alistLookup_eq_none_forall {α β : Type} [DecidableEq α]
    (l : List (α × β)) (k : α) (h : alistLookup l k = none) :
    ∀ p ∈ l, p.1 ≠ k := by
  induction l with
  | nil => intro p hp; cases hp
  | cons q t ih =>
    obtain ⟨a, b⟩ := q
    by_cases hk : a = k
    · simp [alistLookup, if_pos hk] at h
    · intro p hp
      cases hp with
      | head => exact hk
      | tail _ hp' =>
        simp only [alistLookup, if_neg hk] at h
        exact ih h p hp'

theorem mem_alistInsert_values {α β : Type} [DecidableEq α]
    (l : List (α × β)) (k : α) (v w : β)
    (hw : w ∈ (alistInsert l k v).map Prod.snd) :
    w = v ∨ ∃ p, p ∈ l ∧ p.1 ≠ k ∧ p.2 = w := by
  unfold alistInsert at hw
  by_cases hs : (alistLookup l k).isSome
  · simp only [hs, if_true, List.map_map] at hw
    obtain ⟨p, hp, hpe⟩ := List.mem_map.mp hw
    by_cases hpk : p.1 = k
    · left
      rw [show (Prod.snd ∘ fun p : α × β => if p.1 = k then (k, v) else p) p
            = Prod.snd (if p.1 = k then (k, v) else p) from rfl, if_pos hpk] at hpe
      exact hpe.symm
    · right
      refine ⟨p, hp, hpk, ?_⟩
      rw [show (Prod.snd ∘ fun p : α × β => if p.1 = k then (k, v) else p) p
            = Prod.snd (if p.1 = k then (k, v) else p) from rfl, if_neg hpk] at hpe
      exact hpe
  · simp only [hs, if_false, Bool.false_eq_true, List.map_append, List.map_cons,
      List.map_nil] at hw
    rcases List.mem_append.mp hw with hmem | hmem
    · obtain ⟨p, hp, hpe⟩ := List.mem_map.mp hmem
      right
      exact ⟨p, hp,
        alistLookup_eq_none_forall l k (Option.not_isSome_iff_eq_none.mp hs) p hp, hpe⟩
    · left
      simp only [List.mem_singleton] at hmem
      exact hmem

/-- C5: a chat message whose sessionId is in neither the in-memory session
cache nor the Session Store fails with SessionNotFound, leaves the whole
server state unchanged (no message created or persisted), and delivers
nothing. -/
theorem c5_unknown_session_message_rejected_no_state_change
    (now : Nat) (userId : Int) (sessionId : Nat) (content : String) (st : ServerState)
    (hc : alistLookup st.sessions sessionId = none)
    (hs : st.store.getChatSession sessionId = none) :
    processChatMessage now userId sessionId content st
      = (.error .sessionNotFound, st, []) := by
  have hf : fetchSession st sessionId = none := by
    unfold fetchSession
    rw [hc, hs]
    rfl
  unfold processChatMessage
  rw [hf]

/-- Witness for C5 at a concrete state: session 99 is unknown to the cache
and the store of `stateChat`. -/
theorem c5_witness :
    alistLookup stateChat.sessions 99 = none ∧
    stateChat.store.getChatSession 99 = none ∧
    processChatMessage 30 (-42) 99 "x" stateChat
      = (.error .sessionNotFound, stateChat, []) :=
  ⟨rfl, rfl,
   c5_unknown_session_message_rejected_no_state_change 30 (-42) 99 "x" stateChat rfl rfl⟩

/-- C3 counterexample: ending session 1 at tick 20 stamps `endedAt = 20`;
ending the already-ended session again at tick 30 succeeds but returns a
record with `endedAt = 30`, so the second call does change `endedAt`,
against the claim. -/
theorem c3_counterexample :
    (endChatSession 20 1 stateQuiet).1 = .ok ⟨1, -42, none, "ended", 10, some 20⟩ ∧
    alistLookup stateOnceEnded.store.chatSessions 1
      = some ⟨1, -42, none, "ended", 10, some 20⟩ ∧
    (endChatSession 30 1 stateOnceEnded).1 = .ok ⟨1, -42, none, "ended", 10, some 30⟩ ∧
    (⟨1, -42, none, "ended", 10, some 30⟩ : ChatSession)
      ≠ ⟨1, -42, none, "ended", 10, some 20⟩ := by
  refine ⟨rfl, rfl, rfl, ?_⟩
  decide

/-- C3 amended: `end(sessionId)` on any session present in the store (in
particular one already `ended`) succeeds and returns the record with status
`"ended"` and `endedAt` restamped to the call's clock — all other fields are
preserved, so repeated calls agree except for `endedAt`, which each call
overwrites. -/
theorem c3_end_restamps_endedAt
    (now : Nat) (sessionId : Nat) (st : ServerState) (ses : ChatSession)
    (h : alistLookup st.store.chatSessions sessionId = some ses) :
    (endChatSession now sessionId st).1
      = .ok { ses with status := "ended", endedAt := some now } ∧
    alistLookup (endChatSession now sessionId st).2.1.store.chatSessions sessionId
      = some { ses with status := "ended", endedAt := some now } := by
  have hu : st.store.updateChatSession sessionId ⟨none, some "ended", some now⟩
      = .ok ({ ses with status := "ended", endedAt := some now },
             { st.store with
               chatSessions :=
                 alistInsert st.store.chatSessions sessionId
                   { ses with status := "ended", endedAt := some now } }) := by
    unfold Storage.updateChatSession
    rw [h]
    rfl
  unfold endChatSession
  rw [hu]
  exact ⟨rfl, alistLookup_insert_self _ _ _⟩

/-- Witness for C3 amended, applied to the already-ended session of
`stateEnded`: the second `end` succeeds and restamps `endedAt` to 30. -/
theorem c3_witness :
    alistLookup stateEnded.store.chatSessions 1 = some sesEnded ∧
    (endChatSession 30 1 stateEnded).1
      = .ok { sesEnded with status := "ended", endedAt := some 30 } :=
  ⟨rfl, (c3_end_restamps_endedAt 30 1 stateEnded sesEnded rfl).1⟩

/-- C1 counterexample: session 1 of `stateEnded` is already `ended` and
assigned to agent 7; `assign(8, 1)` is not a no-op returning the current
state — it succeeds with a record re-activated and re-assigned to agent 8,
and the store is changed accordingly. -/
theorem c1_counterexample :
    sesEnded.status = "ended" ∧ sesEnded.agentId = some 7 ∧
    alistLookup stateEnded.store.chatSessions 1 = some sesEnded ∧
    (assignSession 30 8 1 stateEnded).1
      = .ok { sesEnded with agentId := some 8, status := "active" } ∧
    ({ sesEnded with agentId := some 8, status := "active" } : ChatSession) ≠ sesEnded ∧
    alistLookup (assignSession 30 8 1 stateEnded).2.1.store.chatSessions 1 ≠ some sesEnded := by
  refine ⟨rfl, rfl, rfl, rfl, ?_, ?_⟩ <;> decide

/-- C1 amended: `assign(agentId, sessionId)` fails with the store's
session-not-found error exactly when the session is absent from the store;
on any present session — `waiting`, `active`, or `ended` alike — it
unconditionally overwrites `agentId` with the caller and forces status
`"active"`, returning and recording that state (so concurrent/sequential
assigns are last-write-wins: each caller gets its own assignment back, not
one common winner, and an `ended` session is re-activated). -/
theorem c1_assign_last_write_wins
    (now : Nat) (agentId : Int) (sessionId : Nat) (st : ServerState) :
    (alistLookup st.store.chatSessions sessionId = none →
      assignSession now agentId sessionId st
        = (.error (.storeSessionNotFound sessionId), st, [])) ∧
    (∀ ses, alistLookup st.store.chatSessions sessionId = some ses →
      (assignSession now agentId sessionId st).1
          = .ok { ses with agentId := some agentId, status := "active" } ∧
      alistLookup (assignSession now agentId sessionId st).2.1.store.chatSessions sessionId
          = some { ses with agentId := some agentId, status := "active" } ∧
      alistLookup (assignSession now agentId sessionId st).2.1.sessions sessionId
          = some { ses with agentId := some agentId, status := "active" }) := by
  constructor
  · intro h
    have hu : st.store.updateChatSession sessionId ⟨some agentId, some "active", none⟩
        = .error (.storeSessionNotFound sessionId) := by
      unfold Storage.updateChatSession
      rw [h]
    unfold assignSession
    rw [hu]
  · intro ses h
    have hu : st.store.updateChatSession sessionId ⟨some agentId, some "active", none⟩
        = .ok ({ ses with agentId := some agentId, status := "active" },
               { st.store with
                 chatSessions :=
                   alistInsert st.store.chatSessions sessionId
                     { ses with agentId := some agentId, status := "active" } }) := by
      unfold Storage.updateChatSession
      rw [h]
      rfl
    unfold assignSession
    rw [hu]
    exact ⟨rfl, alistLookup_insert_self _ _ _, alistLookup_insert_self _ _ _⟩

/-- Witness for C1 amended: absent session 99 yields the not-found error;
present (ended) session 1 yields the overwritten active record. -/
theorem c1_witness :
    assignSession 30 8 99 stateEnded
      = (.error (.storeSessionNotFound 99), stateEnded, []) ∧
    (assignSession 30 8 1 stateEnded).1
      = .ok { sesEnded with agentId := some 8, status := "active" } :=
  ⟨(c1_assign_last_write_wins 30 8 99 stateEnded).1 rfl,
   ((c1_assign_last_write_wins 30 8 1 stateEnded).2 sesEnded rfl).1⟩

theorem updateUserStatus_frame (s : Storage) (uid : Int) (status : String) :
    (s.updateUserStatus uid status).2.chatSessions = s.chatSessions ∧
    (s.updateUserStatus uid status).2.messages = s.messages := by
  unfold Storage.updateUserStatus
  cases alistLookup s.users uid <;> exact ⟨rfl, rfl⟩

theorem updateUserStatus_users_self (s : Storage) (uid : Int) (status : String) :
    alistLookup (s.updateUserStatus uid status).2.users uid
      = (alistLookup s.users uid).map (fun u => { u with status := status }) := by
  unfold Storage.updateUserStatus
  cases h : alistLookup s.users uid with
  | none => simp [h]
  | some u => simp [h, alistLookup_insert_self]

theorem updateUserStatus_users_ne (s : Storage) (uid u' : Int) (status : String)
    (h : u' ≠ uid) :
    alistLookup (s.updateUserStatus uid status).2.users u' = alistLookup s.users u' := by
  unfold Storage.updateUserStatus
  cases hh : alistLookup s.users uid with
  | none => rfl
  | some u => simp [hh, alistLookup_insert_ne _ _ _ _ h]

theorem handleDisconnect_components (userId : Int) (st : ServerState) :
    (handleDisconnect userId st).connections = alistErase st.connections userId ∧
    (handleDisconnect userId st).sessions = st.sessions ∧
    (handleDisconnect userId st).userSessions = st.userSessions ∧
    (handleDisconnect userId st).store = (st.store.updateUserStatus userId "offline").2 :=
  ⟨rfl, rfl, rfl, rfl⟩

/-- C8: `handleDisconnect(userId)` removes the user's Connection Registry
entry and, when the user has a store record, marks its presence `offline`
(other users' records untouched); it never modifies the session cache, the
per-user session index, or any stored chat session or message — a
disconnected user's sessions persist unchanged — and a duplicate disconnect
for the already-removed user is a no-op on the registry and on all session
state. -/
theorem c8_disconnect_is_frame_on_sessions
    (userId : Int) (st : ServerState) :
    alistLookup (handleDisconnect userId st).connections userId = none ∧
    (handleDisconnect userId st).sessions = st.sessions ∧
    (handleDisconnect userId st).userSessions = st.userSessions ∧
    (handleDisconnect userId st).store.chatSessions = st.store.chatSessions ∧
    (handleDisconnect userId st).store.messages = st.store.messages ∧
    alistLookup (handleDisconnect userId st).store.users userId
      = (alistLookup st.store.users userId).map (fun u => { u with status := "offline" }) ∧
    (∀ u', u' ≠ userId →
      alistLookup (handleDisconnect userId st).store.users u'
        = alistLookup st.store.users u') ∧
    (handleDisconnect userId (handleDisconnect userId st)).connections
      = (handleDisconnect userId st).connections ∧
    (handleDisconnect userId (handleDisconnect userId st)).sessions
      = (handleDisconnect userId st).sessions ∧
    (handleDisconnect userId (handleDisconnect userId st)).store.chatSessions
      = (handleDisconnect userId st).store.chatSessions ∧
    (handleDisconnect userId (handleDisconnect userId st)).store.messages
      = (handleDisconnect userId st).store.messages := by
  obtain ⟨hc, hs, hus, hst⟩ := handleDisconnect_components userId st
  obtain ⟨hc2, hs2, hus2, hst2⟩ :=
    handleDisconnect_components userId (handleDisconnect userId st)
  refine ⟨?_, hs, hus, ?_, ?_, ?_, ?_, ?_, hs2, ?_, ?_⟩
  · rw [hc]
    exact alistLookup_erase_self _ _
  · rw [hst]
    exact (updateUserStatus_frame st.store userId "offline").1
  · rw [hst]
    exact (updateUserStatus_frame st.store userId "offline").2
  · rw [hst]
    exact updateUserStatus_users_self st.store userId "offline"
  · intro u' hu'
    rw [hst]
    exact updateUserStatus_users_ne st.store userId u' "offline" hu'
  · rw [hc2, hc]
    exact alistErase_idem _ _
  · rw [hst2]
    exact (updateUserStatus_frame (handleDisconnect userId st).store userId "offline").1
  · rw [hst2]
    exact (updateUserStatus_frame (handleDisconnect userId st).store userId "offline").2

/-- Witness for C8 at a concrete state: disconnecting the connected agent 7
of `stateAgentOnline` empties its registry entry, leaves the waiting session
on record, and flips the stored user's presence to offline; the clause for
other users is applied at user 5. -/
theorem c8_witness :
    alistLookup (handleDisconnect 7 stateAgentOnline).connections 7 = none ∧
    (handleDisconnect 7 stateAgentOnline).store.chatSessions
      = stateAgentOnline.store.chatSessions ∧
    alistLookup (handleDisconnect 7 stateAgentOnline).store.users 7
      = some ⟨7, "agent", "offline"⟩ ∧
    alistLookup (handleDisconnect 7 stateAgentOnline).store.users 5
      = alistLookup stateAgentOnline.store.users 5 := by
  obtain ⟨h1, _, _, h4, _, h6, h7, _⟩ := c8_disconnect_is_frame_on_sessions 7 stateAgentOnline
  exact ⟨h1, h4, by rw [h6]; rfl, h7 5 (by decide)⟩

/-- C9 counterexample: agent 7 connects on socket 1, then reconnects on
socket 2 (the newer entry supersedes); a disconnect arriving for the stale
socket-1 connection nevertheless removes the registry entry, so the newer
socket-2 entry is not left in place, against the claim that removal happens
only on a handle match. -/
theorem c9_counterexample :
    (alistLookup stateConnNew.connections 7).map (fun c => c.socket.id) = some 2 ∧
    alistLookup (handleDisconnect 7 stateConnNew).connections 7 = none :=
  ⟨rfl, rfl⟩

/-- C9 amended: `handleDisconnect(userId)` takes no connection handle and
removes the registry entry for `userId` unconditionally — in particular a
disconnect fired for an older, superseded connection also clobbers the
newer entry; entries of other users are untouched. -/
theorem c9_unregister_is_unconditional (userId : Int) (st : ServerState) :
    alistLookup (handleDisconnect userId st).connections userId = none ∧
    (∀ u', u' ≠ userId →
      alistLookup (handleDisconnect userId st).connections u'
        = alistLookup st.connections u') := by
  obtain ⟨hc, _, _, _⟩ := handleDisconnect_components userId st
  constructor
  · rw [hc]
    exact alistLookup_erase_self _ _
  · intro u' hu'
    rw [hc]
    exact alistLookup_erase_ne _ _ _ hu'

/-- Witness for C9 amended at `stateConnNew`: the entry for user 7 is gone,
and the (absent) entry for user 5 is unchanged. -/
theorem c9_witness :
    alistLookup (handleDisconnect 7 stateConnNew).connections 7 = none ∧
    alistLookup (handleDisconnect 7 stateConnNew).connections 5
      = alistLookup stateConnNew.connections 5 :=
  ⟨(c9_unregister_is_unconditional 7 stateConnNew).1,
   (c9_unregister_is_unconditional 7 stateConnNew).2 5 (by decide)⟩

/-- C7: `processTypingIndicator` fails with SessionNotFound when the session
is unknown; otherwise it persists nothing (the whole state is unchanged) and
the indicator goes only to the one resolved recipient — the session
participant on the other side of the sender (customer↔agent) — never to the
sender itself (given the session's customer and agent differ) and never to
any other connection; when that recipient is a truthy id with a registered
open connection, exactly one delivery is made, to it. -/
theorem c7_typing_only_other_participant
    (now : Nat) (userId : Int) (sessionId : Nat) (isTyping : Bool) (st : ServerState) :
    (fetchSession st sessionId = none →
      processTypingIndicator now userId sessionId isTyping st
        = (.error .sessionNotFound, st, [])) ∧
    (∀ ses, fetchSession st sessionId = some ses →
      (processTypingIndicator now userId sessionId isTyping st).1 = .ok () ∧
      (processTypingIndicator now userId sessionId isTyping st).2.1 = st ∧
      (∀ d ∈ (processTypingIndicator now userId sessionId isTyping st).2.2,
        some d.toUser
            = (if userId = ses.customerId then ses.agentId else some ses.customerId) ∧
        d.msg = ⟨messageTypes.TYPING, .typing sessionId userId isTyping, now⟩) ∧
      (ses.agentId ≠ some ses.customerId →
        ∀ d ∈ (processTypingIndicator now userId sessionId isTyping st).2.2,
          d.toUser ≠ userId) ∧
      (∀ r c,
        (if userId = ses.customerId then ses.agentId else some ses.customerId) = some r →
        r ≠ 0 → alistLookup st.connections r = some c → c.socket.isOpen = true →
        (processTypingIndicator now userId sessionId isTyping st).2.2
          = [⟨r, c.socket.id,
              ⟨messageTypes.TYPING, .typing sessionId userId isTyping, now⟩⟩])) := by
  constructor
  · intro hf
    unfold processTypingIndicator
    rw [hf]
  · intro ses hf
    have h1 : (processTypingIndicator now userId sessionId isTyping st).1 = .ok () := by
      unfold processTypingIndicator
      rw [hf]
    have h2 : (processTypingIndicator now userId sessionId isTyping st).2.1 = st := by
      unfold processTypingIndicator
      rw [hf]
    have h3 : (processTypingIndicator now userId sessionId isTyping st).2.2
        = (match (if userId = ses.customerId then ses.agentId else some ses.customerId) with
           | some r =>
             if r ≠ 0 then
               match alistLookup st.connections r with
               | some c =>
                 sendViaSocket r c.socket
                   ⟨messageTypes.TYPING, .typing sessionId userId isTyping, now⟩
               | none => []
             else []
           | none => []) := by
      unfold processTypingIndicator
      rw [hf]
    have hA : ∀ d ∈ (processTypingIndicator now userId sessionId isTyping st).2.2,
        some d.toUser
            = (if userId = ses.customerId then ses.agentId else some ses.customerId) ∧
        d.msg = ⟨messageTypes.TYPING, .typing sessionId userId isTyping, now⟩ := by
      rw [h3]
      cases hR : (if userId = ses.customerId then ses.agentId else some ses.customerId) with
      | none => simp
      | some r =>
        by_cases hr0 : r = 0
        · simp [hr0]
        · cases hcl : alistLookup st.connections r with
          | none => simp [hr0, hcl]
          | some c =>
            by_cases hop : c.socket.isOpen = true
            · simp [hr0, hcl, sendViaSocket, hop]
            · simp [hr0, hcl, sendViaSocket, hop]
    refine ⟨h1, h2, hA, ?_, ?_⟩
    · intro hdiff d hd
      obtain ⟨hA1, _⟩ := hA d hd
      by_cases hcu : userId = ses.customerId
      · rw [if_pos hcu] at hA1
        intro hdu
        rw [hdu, hcu] at hA1
        exact hdiff hA1.symm
      · rw [if_neg hcu] at hA1
        intro hdu
        exact hcu (hdu.symm.trans (Option.some.inj hA1))
    · intro r c hR hr0 hcl hop
      rw [h3, hR]
      simp [hr0, hcl, sendViaSocket, hop]

/-- Witness for C7 at `stateActive`: the typing indicator of customer `-42`
is delivered exactly to agent 7, and the non-sender and exactly-one clauses
are discharged on that session; the unknown-session clause is applied at
session 99. -/
theorem c7_witness :
    processTypingIndicator 50 (-42) 99 true stateActive
      = (.error .sessionNotFound, stateActive, []) ∧
    (processTypingIndicator 50 (-42) 1 true stateActive).2.1 = stateActive ∧
    (processTypingIndicator 50 (-42) 1 true stateActive).2.2
      = [⟨7, sockAgent.id, ⟨messageTypes.TYPING, .typing 1 (-42) true, 50⟩⟩] := by
  refine ⟨(c7_typing_only_other_participant 50 (-42) 99 true stateActive).1 rfl, ?_, ?_⟩
  · exact (((c7_typing_only_other_participant 50 (-42) 1 true stateActive).2
      ⟨1, -42, some 7, "active", 10, none⟩ rfl).2.1)
  · exact (((c7_typing_only_other_participant 50 (-42) 1 true stateActive).2
      ⟨1, -42, some 7, "active", 10, none⟩ rfl).2.2.2.2 7 ⟨7, "agent", sockAgent⟩
      rfl (by decide) rfl rfl)

theorem newCustomerSessionFlow_spec (now : Nat) (userId : Int) (sock : Socket)
    (st : ServerState) :
    (newCustomerSessionFlow now userId sock st).1.store.chatSessions
      = alistInsert st.store.chatSessions st.store.currentSessionId
          ⟨st.store.currentSessionId, userId, none, "waiting", now, none⟩ ∧
    alistLookup (newCustomerSessionFlow now userId sock st).1.sessions
        st.store.currentSessionId
      = some ⟨st.store.currentSessionId, userId, none, "waiting", now, none⟩ ∧
    (newCustomerSessionFlow now userId sock st).2
      = (st.connections.filter (fun p => p.2.role == "agent" && p.2.socket.isOpen)).map
          (fun p => ⟨p.1, p.2.socket.id,
            ⟨messageTypes.SESSION_ASSIGNED,
             .sessionAssigned ⟨st.store.currentSessionId, userId, none, "waiting", now, none⟩,
             now⟩⟩)
        ++ sendViaSocket userId sock
            ⟨messageTypes.CHAT_HISTORY,
             .chatHistory ⟨st.store.currentSessionId, userId, none, "waiting", now, none⟩ [],
             now⟩ := by
  refine ⟨rfl, ?_, rfl⟩
  exact alistLookup_insert_self _ _ _

/-- C6: when the connecting customer has a non-ended session on record, the
handler sends exactly that session together with its message history as
fetched from the Session Store, and the store is completely unchanged (no
new session is created); only when every session of the customer is ended
(or none exists) is a fresh `waiting` session created, persisted, cached,
broadcast to every connected open agent connection, and sent to the
customer with an empty history. -/
theorem c6_customer_connect_resume_or_create (now : Nat) (userId : Int)
    (sock : Socket) (st : ServerState) :
    (∀ act, (st.store.getChatSessionsByCustomerId userId).find?
        (fun s => s.status != "ended") = some act →
      (handleCustomerConnection now userId sock st).1.store = st.store ∧
      (handleCustomerConnection now userId sock st).2
        = sendViaSocket userId sock
            ⟨messageTypes.CHAT_HISTORY,
             .chatHistory act (st.store.getMessagesBySessionId act.id), now⟩) ∧
    ((st.store.getChatSessionsByCustomerId userId).find?
        (fun s => s.status != "ended") = none →
      (handleCustomerConnection now userId sock st).1.store.chatSessions
        = alistInsert st.store.chatSessions st.store.currentSessionId
            ⟨st.store.currentSessionId, userId, none, "waiting", now, none⟩ ∧
      alistLookup (handleCustomerConnection now userId sock st).1.sessions
          st.store.currentSessionId
        = some ⟨st.store.currentSessionId, userId, none, "waiting", now, none⟩ ∧
      (handleCustomerConnection now userId sock st).2
        = (st.connections.filter (fun p => p.2.role == "agent" && p.2.socket.isOpen)).map
            (fun p => ⟨p.1, p.2.socket.id,
              ⟨messageTypes.SESSION_ASSIGNED,
               .sessionAssigned ⟨st.store.currentSessionId, userId, none, "waiting", now, none⟩,
               now⟩⟩)
          ++ sendViaSocket userId sock
              ⟨messageTypes.CHAT_HISTORY,
               .chatHistory ⟨st.store.currentSessionId, userId, none, "waiting", now, none⟩ [],
               now⟩) := by
  constructor
  · intro act hfind
    have hislem : (st.store.getChatSessionsByCustomerId userId).isEmpty = false := by
      cases hl : st.store.getChatSessionsByCustomerId userId with
      | nil => rw [hl] at hfind; cases hfind
      | cons a t => rfl
    have hst : (handleCustomerConnection now userId sock st).1.store = st.store := by
      unfold handleCustomerConnection
      simp only [hislem, Bool.false_eq_true, if_false, hfind]
    have hdel : (handleCustomerConnection now userId sock st).2
        = sendViaSocket userId sock
            ⟨messageTypes.CHAT_HISTORY,
             .chatHistory act (st.store.getMessagesBySessionId act.id), now⟩ := by
      unfold handleCustomerConnection
      simp only [hislem, Bool.false_eq_true, if_false, hfind]
    exact ⟨hst, hdel⟩
  · intro hfind
    have heq : handleCustomerConnection now userId sock st
        = newCustomerSessionFlow now userId sock st := by
      unfold handleCustomerConnection
      cases hl : st.store.getChatSessionsByCustomerId userId with
      | nil => simp [hl]
      | cons a t =>
        rw [hl] at hfind
        simp [hl, hfind]
    rw [heq]
    exact newCustomerSessionFlow_spec now userId sock st

/-- Witness for C6: at `stateResume` the customer resumes the waiting
session (store untouched); at `stateFresh` a new waiting session with id 1
is created and persisted. -/
theorem c6_witness :
    (handleCustomerConnection 40 (-42) sockCust stateResume).1.store
      = stateResume.store ∧
    (handleCustomerConnection 40 (-42) sockCust stateFresh).1.store.chatSessions
      = alistInsert stateFresh.store.chatSessions 1 ⟨1, -42, none, "waiting", 40, none⟩ :=
  ⟨((c6_customer_connect_resume_or_create 40 (-42) sockCust stateResume).1
      sesWaiting (by decide)).1,
   ((c6_customer_connect_resume_or_create 40 (-42) sockCust stateFresh).2 (by decide)).1⟩

theorem updateChatSession_err (s : Storage) (id : Nat) (d : SessionUpdate)
    (h : alistLookup s.chatSessions id = none) :
    s.updateChatSession id d = .error (.storeSessionNotFound id) := by
  unfold Storage.updateChatSession
  rw [h]

theorem updateChatSession_ok (s : Storage) (id : Nat) (d : SessionUpdate) (ses : ChatSession)
    (h : alistLookup s.chatSessions id = some ses) :
    s.updateChatSession id d
      = .ok (Storage.applyUpdate ses d,
             { s with chatSessions := alistInsert s.chatSessions id (Storage.applyUpdate ses d) }) := by
  unfold Storage.updateChatSession
  rw [h]

theorem processChatMessage_notfound_eq
    (now : Nat) (userId : Int) (sessionId : Nat) (content : String) (st : ServerState)
    (hf : fetchSession st sessionId = none) :
    processChatMessage now userId sessionId content st
      = (.error .sessionNotFound, st, []) := by
  unfold processChatMessage
  rw [hf]

theorem processChatMessage_assign_eq
    (now : Nat) (userId : Int) (sessionId : Nat) (content : String) (st : ServerState)
    (ses ses2 : ChatSession)
    (hf : fetchSession st sessionId = some ses)
    (hcond : ses.status = "waiting"
      ∧ (alistLookup st.connections userId).map Connection.role = some "agent")
    (hst : alistLookup st.store.chatSessions sessionId = some ses2) :
    processChatMessage now userId sessionId content st
      = (.ok ⟨st.store.currentMessageId, sessionId, userId, content, now, false⟩,
         { st with
           store := { st.store with
             messages := alistInsert st.store.messages st.store.currentMessageId
               ⟨st.store.currentMessageId, sessionId, userId, content, now, false⟩,
             currentMessageId := st.store.currentMessageId + 1,
             chatSessions := alistInsert st.store.chatSessions sessionId
               (Storage.applyUpdate ses2 ⟨some userId, some "active", none⟩) },
           sessions := alistInsert st.sessions sessionId
             (Storage.applyUpdate ses2 ⟨some userId, some "active", none⟩) },
         sendToSessionParticipants
           { st with
             store := { st.store with
               messages := alistInsert st.store.messages st.store.currentMessageId
                 ⟨st.store.currentMessageId, sessionId, userId, content, now, false⟩,
               currentMessageId := st.store.currentMessageId + 1,
               chatSessions := alistInsert st.store.chatSessions sessionId
                 (Storage.applyUpdate ses2 ⟨some userId, some "active", none⟩) },
             sessions := alistInsert st.sessions sessionId
               (Storage.applyUpdate ses2 ⟨some userId, some "active", none⟩) }
           sessionId
           ⟨messageTypes.CHAT_MESSAGE,
            .chatMessage ⟨st.store.currentMessageId, sessionId, userId, content, now, false⟩ ses,
            now⟩) := by
  unfold processChatMessage
  rw [hf]
  dsimp only
  rw [if_pos hcond]
  rw [updateChatSession_ok
        (st.store.createMessage ⟨sessionId, userId, content⟩ now).2 sessionId
        ⟨some userId, some "active", none⟩ ses2 hst]
  rfl

theorem processChatMessage_noassign_eq
    (now : Nat) (userId : Int) (sessionId : Nat) (content : String) (st : ServerState)
    (ses : ChatSession)
    (hf : fetchSession st sessionId = some ses)
    (hncond : ¬(ses.status = "waiting"
      ∧ (alistLookup st.connections userId).map Connection.role = some "agent")) :
    processChatMessage now userId sessionId content st
      = (.ok ⟨st.store.currentMessageId, sessionId, userId, content, now, false⟩,
         { st with
           store := { st.store with
             messages := alistInsert st.store.messages st.store.currentMessageId
               ⟨st.store.currentMessageId, sessionId, userId, content, now, false⟩,
             currentMessageId := st.store.currentMessageId + 1 } },
         sendToSessionParticipants
           { st with
             store := { st.store with
               messages := alistInsert st.store.messages st.store.currentMessageId
                 ⟨st.store.currentMessageId, sessionId, userId, content, now, false⟩,
               currentMessageId := st.store.currentMessageId + 1 } }
           sessionId
           ⟨messageTypes.CHAT_MESSAGE,
            .chatMessage ⟨st.store.currentMessageId, sessionId, userId, content, now, false⟩ ses,
            now⟩) := by
  unfold processChatMessage
  rw [hf]
  dsimp only
  rw [if_neg hncond]
  rfl

/-- C10: for any session present in the Session Store — its status may be
`waiting`, `active`, or `ended` — and a consistent cache, `processChatMessage`
does not throw: the message is created with the next message id, persisted in
the store, and dispatched to the session participants together with the
fetched session snapshot; a message into an ended session is accepted. -/
theorem c10_message_into_existing_session_accepted
    (now : Nat) (userId : Int) (sessionId : Nat) (content : String) (st : ServerState)
    (ses : ChatSession)
    (hc : alistLookup st.sessions sessionId = none
      ∨ alistLookup st.sessions sessionId = some ses)
    (hs : alistLookup st.store.chatSessions sessionId = some ses) :
    (processChatMessage now userId sessionId content st).1
        = .ok ⟨st.store.currentMessageId, sessionId, userId, content, now, false⟩ ∧
    alistLookup (processChatMessage now userId sessionId content st).2.1.store.messages
        st.store.currentMessageId
      = some ⟨st.store.currentMessageId, sessionId, userId, content, now, false⟩ ∧
    (processChatMessage now userId sessionId content st).2.2
      = sendToSessionParticipants (processChatMessage now userId sessionId content st).2.1
          sessionId
          ⟨messageTypes.CHAT_MESSAGE,
           .chatMessage ⟨st.store.currentMessageId, sessionId, userId, content, now, false⟩ ses,
           now⟩ := by
  have hf : fetchSession st sessionId = some ses := by
    unfold fetchSession Storage.getChatSession
    cases hc with
    | inl h => rw [h]; exact hs
    | inr h => rw [h]; rfl
  by_cases hbr : ses.status = "waiting"
      ∧ (alistLookup st.connections userId).map Connection.role = some "agent"
  · rw [processChatMessage_assign_eq now userId sessionId content st ses ses hf hbr hs]
    exact ⟨rfl, alistLookup_insert_self _ _ _, rfl⟩
  · rw [processChatMessage_noassign_eq now userId sessionId content st ses hf hbr]
    exact ⟨rfl, alistLookup_insert_self _ _ _, rfl⟩

/-- Witness for C10 at `stateEndedConnected`: a customer message into the
already-ended session 1 is accepted, persisted, and dispatched. -/
theorem c10_witness :
    (processChatMessage 60 (-42) 1 "late" stateEndedConnected).1
        = .ok ⟨1, 1, -42, "late", 60, false⟩ ∧
    alistLookup (processChatMessage 60 (-42) 1 "late" stateEndedConnected).2.1.store.messages 1
        = some ⟨1, 1, -42, "late", 60, false⟩ :=
  ⟨(c10_message_into_existing_session_accepted 60 (-42) 1 "late" stateEndedConnected
      sesEnded (Or.inl rfl) rfl).1,
   (c10_message_into_existing_session_accepted 60 (-42) 1 "late" stateEndedConnected
      sesEnded (Or.inl rfl) rfl).2.1⟩

theorem sendToSessionParticipants_cached_both (st : ServerState) (sessionId : Nat)
    (ses : ChatSession) (m : WsMessage) (a : Int) (cc ca : Connection)
    (hcache : alistLookup st.sessions sessionId = some ses)
    (hag : ses.agentId = some a) (ha0 : a ≠ 0)
    (hcust : alistLookup st.connections ses.customerId = some cc)
    (hco : cc.socket.isOpen = true)
    (hsc : alistLookup st.connections a = some ca)
    (hao : ca.socket.isOpen = true) :
    sendToSessionParticipants st sessionId m
      = [⟨ses.customerId, cc.socket.id, m⟩, ⟨a, ca.socket.id, m⟩] := by
  have hf : fetchSession st sessionId = some ses := by
    unfold fetchSession
    rw [hcache]
    rfl
  unfold sendToSessionParticipants
  rw [hf]
  dsimp only
  rw [hcust, hag]
  simp [sendViaSocket, hco, ha0, hsc, hao]

/-- C2 counterexample: in `stateChat` the agent 7 sends "Hello" into the
waiting session 1; the session is transitioned to `active` in the store, but
the session snapshot delivered to both participants is the one read before
the transition — status still `"waiting"` and no agentId — not the
post-transition snapshot the claim describes. -/
theorem c2_counterexample :
    (alistLookup (processChatMessage 30 7 1 "Hello" stateChat).2.1.store.chatSessions 1).map
        ChatSession.status = some "active" ∧
    (processChatMessage 30 7 1 "Hello" stateChat).2.2
      = [⟨-42, 1, ⟨messageTypes.CHAT_MESSAGE,
            .chatMessage ⟨1, 1, 7, "Hello", 30, false⟩ sesWaiting, 30⟩⟩,
         ⟨7, 2, ⟨messageTypes.CHAT_MESSAGE,
            .chatMessage ⟨1, 1, 7, "Hello", 30, false⟩ sesWaiting, 30⟩⟩] ∧
    sesWaiting.status = "waiting" ∧ sesWaiting.agentId = none ∧
    sesWaiting ≠ { sesWaiting with agentId := some 7, status := "active" } := by
  refine ⟨rfl, rfl, rfl, rfl, ?_⟩
  decide

/-- C2 amended: an agent message into a `waiting` session (store and cache
consistent, sender registered as an agent) does transition the session to
`active` with that agent before delivery — visible in the store, the cache,
and in `getChatSessionsByStatus "waiting"` no longer listing the session —
and the stored message is delivered to both the customer and the newly
assigned agent; but the session snapshot inside the delivered payload is the
pre-transition one (status `"waiting"`, agent unset), not the current
post-transition state. -/
theorem c2_agent_message_assigns_but_delivers_stale_snapshot
    (now : Nat) (userId : Int) (sessionId : Nat) (content : String) (st : ServerState)
    (ses : ChatSession) (cc ca : Connection)
    (hc : alistLookup st.sessions sessionId = none
      ∨ alistLookup st.sessions sessionId = some ses)
    (hs : alistLookup st.store.chatSessions sessionId = some ses)
    (hw : ses.status = "waiting")
    (hsc : alistLookup st.connections userId = some ca)
    (harole : ca.role = "agent")
    (hwf : ∀ p ∈ st.store.chatSessions, (p.2).id = p.1)
    (hcust : alistLookup st.connections ses.customerId = some cc)
    (hco : cc.socket.isOpen = true)
    (hao : ca.socket.isOpen = true)
    (hu0 : userId ≠ 0) :
    (processChatMessage now userId sessionId content st).1
        = .ok ⟨st.store.currentMessageId, sessionId, userId, content, now, false⟩ ∧
    alistLookup (processChatMessage now userId sessionId content st).2.1.store.chatSessions
        sessionId = some { ses with agentId := some userId, status := "active" } ∧
    alistLookup (processChatMessage now userId sessionId content st).2.1.sessions sessionId
        = some { ses with agentId := some userId, status := "active" } ∧
    (∀ s ∈ (processChatMessage now userId sessionId
        content st).2.1.store.getChatSessionsByStatus "waiting", s.id ≠ sessionId) ∧
    (processChatMessage now userId sessionId content st).2.2
      = [⟨ses.customerId, cc.socket.id,
          ⟨messageTypes.CHAT_MESSAGE,
           .chatMessage ⟨st.store.currentMessageId, sessionId, userId, content, now, false⟩ ses,
           now⟩⟩,
         ⟨userId, ca.socket.id,
          ⟨messageTypes.CHAT_MESSAGE,
           .chatMessage ⟨st.store.currentMessageId, sessionId, userId, content, now, false⟩ ses,
           now⟩⟩] := by
  have hf : fetchSession st sessionId = some ses := by
    unfold fetchSession Storage.getChatSession
    cases hc with
    | inl h => rw [h]; exact hs
    | inr h => rw [h]; rfl
  have hrole : (alistLookup st.connections userId).map Connection.role = some "agent" := by
    rw [hsc]
    simp [harole]
  rw [processChatMessage_assign_eq now userId sessionId content st ses ses hf ⟨hw, hrole⟩ hs]
  refine ⟨rfl, alistLookup_insert_self _ _ _, alistLookup_insert_self _ _ _, ?_, ?_⟩
  · intro s hmem
    unfold Storage.getChatSessionsByStatus at hmem
    obtain ⟨hmm, hstat⟩ := List.mem_filter.mp hmem
    rcases mem_alistInsert_values _ _ _ _ hmm with hcase | ⟨p, hp, hpk, hpe⟩
    · rw [hcase] at hstat
      simp [Storage.applyUpdate] at hstat
    · rw [← hpe, hwf p hp]
      exact hpk
  · exact sendToSessionParticipants_cached_both _ sessionId
      (Storage.applyUpdate ses ⟨some userId, some "active", none⟩) _ userId cc ca
      (alistLookup_insert_self _ _ _) rfl hu0 hcust hco hsc hao

/-- Witness for C2 amended at `stateChat` (agent 7 writes "Hello" into the
waiting session of customer `-42`). -/
theorem c2_witness :
    (processChatMessage 30 7 1 "Hello" stateChat).1 = .ok ⟨1, 1, 7, "Hello", 30, false⟩ ∧
    alistLookup (processChatMessage 30 7 1 "Hello" stateChat).2.1.store.chatSessions 1
      = some { sesWaiting with agentId := some 7, status := "active" } ∧
    (∀ s ∈ (processChatMessage 30 7 1
        "Hello" stateChat).2.1.store.getChatSessionsByStatus "waiting", s.id ≠ 1) := by
  have h := c2_agent_message_assigns_but_delivers_stale_snapshot 30 7 1 "Hello" stateChat
    sesWaiting ⟨-42, "customer", sockCust⟩ ⟨7, "agent", sockAgent⟩
    (Or.inl rfl) rfl rfl rfl rfl (by decide) rfl rfl rfl (by decide)
  exact ⟨h.1, h.2.1, h.2.2.2.1⟩

theorem assignSession_eq_err (now : Nat) (a : Int) (sessionId : Nat) (st : ServerState)
    (h : alistLookup st.store.chatSessions sessionId = none) :
    assignSession now a sessionId st
      = (.error (.storeSessionNotFound sessionId), st, []) := by
  unfold assignSession
  rw [updateChatSession_err st.store sessionId ⟨some a, some "active", none⟩ h]

theorem assignSession_eq_ok (now : Nat) (a : Int) (sessionId : Nat) (st : ServerState)
    (ses : ChatSession) (h : alistLookup st.store.chatSessions sessionId = some ses) :
    assignSession now a sessionId st
      = (.ok (Storage.applyUpdate ses ⟨some a, some "active", none⟩),
         { st with
           store := { st.store with
             chatSessions := alistInsert st.store.chatSessions sessionId
               (Storage.applyUpdate ses ⟨some a, some "active", none⟩) },
           sessions := alistInsert st.sessions sessionId
             (Storage.applyUpdate ses ⟨some a, some "active", none⟩),
           userSessions := pushUserSession st.userSessions a sessionId },
         sendToSessionParticipants
           { st with
             store := { st.store with
               chatSessions := alistInsert st.store.chatSessions sessionId
                 (Storage.applyUpdate ses ⟨some a, some "active", none⟩) },
             sessions := alistInsert st.sessions sessionId
               (Storage.applyUpdate ses ⟨some a, some "active", none⟩),
             userSessions := pushUserSession st.userSessions a sessionId }
           sessionId
           ⟨messageTypes.SESSION_ASSIGNED,
            .sessionAssigned (Storage.applyUpdate ses ⟨some a, some "active", none⟩), now⟩) := by
  unfold assignSession
  rw [updateChatSession_ok st.store sessionId ⟨some a, some "active", none⟩ ses h]

theorem endChatSession_eq_err (now : Nat) (sessionId : Nat) (st : ServerState)
    (h : alistLookup st.store.chatSessions sessionId = none) :
    endChatSession now sessionId st
      = (.error (.storeSessionNotFound sessionId), st, []) := by
  unfold endChatSession
  rw [updateChatSession_err st.store sessionId ⟨none, some "ended", some now⟩ h]

theorem endChatSession_eq_ok (now : Nat) (sessionId : Nat) (st : ServerState)
    (ses : ChatSession) (h : alistLookup st.store.chatSessions sessionId = some ses) :
    endChatSession now sessionId st
      = (.ok (Storage.applyUpdate ses ⟨none, some "ended", some now⟩),
         { st with
           store := { st.store with
             chatSessions := alistInsert st.store.chatSessions sessionId
               (Storage.applyUpdate ses ⟨none, some "ended", some now⟩) },
           sessions := alistInsert st.sessions sessionId
             (Storage.applyUpdate ses ⟨none, some "ended", some now⟩) },
         sendToSessionParticipants
           { st with
             store := { st.store with
               chatSessions := alistInsert st.store.chatSessions sessionId
                 (Storage.applyUpdate ses ⟨none, some "ended", some now⟩) },
             sessions := alistInsert st.sessions sessionId
               (Storage.applyUpdate ses ⟨none, some "ended", some now⟩) }
           sessionId
           ⟨messageTypes.SESSION_ASSIGNED,
            .sessionAssigned (Storage.applyUpdate ses ⟨none, some "ended", some now⟩), now⟩) := by
  unfold endChatSession
  rw [updateChatSession_ok st.store sessionId ⟨none, some "ended", some now⟩ ses h]

/-- C4 counterexample: after `end` the session is `ended`, yet a subsequent
`assign` moves it back to `active` — the reverse transition `ended → active`
is reachable, so `ended` is not terminal. -/
theorem c4_counterexample :
    (alistLookup stateOnceEnded.store.chatSessions 1).map ChatSession.status
      = some "ended" ∧
    (alistLookup (assignSession 30 8 1 stateOnceEnded).2.1.store.chatSessions 1).map
        ChatSession.status = some "active" :=
  ⟨rfl, rfl⟩

/-- C4 amended: each successful `assignSession` leaves the session `active`
and each successful `endChatSession` leaves it `ended`, whatever the prior
status — so `waiting → active` and `→ ended` hold, but `assignSession` also
applies to `ended` sessions and revives them to `active` (the lifecycle is
not linear and `ended` is not terminal); `processChatMessage` itself only
ever changes a status from `waiting` to `active` (on the auto-assign path)
and otherwise changes no session's status. -/
theorem c4_lifecycle_transitions
    (now : Nat) (a : Int) (sessionId : Nat) (st : ServerState) :
    (∀ r st' d, assignSession now a sessionId st = (.ok r, st', d) →
      (alistLookup st'.store.chatSessions sessionId).map ChatSession.status
        = some "active") ∧
    (∀ r st' d, endChatSession now sessionId st = (.ok r, st', d) →
      (alistLookup st'.store.chatSessions sessionId).map ChatSession.status
        = some "ended") ∧
    (∀ userId content,
      (∀ k v, alistLookup st.sessions k = some v →
        alistLookup st.store.chatSessions k = some v) →
      ∀ k,
        (alistLookup (processChatMessage now userId sessionId
            content st).2.1.store.chatSessions k).map ChatSession.status
          = (alistLookup st.store.chatSessions k).map ChatSession.status
        ∨ ((alistLookup st.store.chatSessions k).map ChatSession.status = some "waiting"
           ∧ (alistLookup (processChatMessage now userId sessionId
               content st).2.1.store.chatSessions k).map ChatSession.status
             = some "active")) := by
  refine ⟨?_, ?_, ?_⟩
  · intro r st' d h
    cases hu : alistLookup st.store.chatSessions sessionId with
    | none =>
      rw [assignSession_eq_err now a sessionId st hu] at h
      simp at h
    | some ses =>
      rw [assignSession_eq_ok now a sessionId st ses hu] at h
      injection h with h1 h23
      injection h23 with h2 h3
      subst h2
      dsimp only
      rw [alistLookup_insert_self]
      rfl
  · intro r st' d h
    cases hu : alistLookup st.store.chatSessions sessionId with
    | none =>
      rw [endChatSession_eq_err now sessionId st hu] at h
      simp at h
    | some ses =>
      rw [endChatSession_eq_ok now sessionId st ses hu] at h
      injection h with h1 h23
      injection h23 with h2 h3
      subst h2
      dsimp only
      rw [alistLookup_insert_self]
      rfl
  · intro userId content hcons k
    cases hfe : fetchSession st sessionId with
    | none =>
      rw [processChatMessage_notfound_eq now userId sessionId content st hfe]
      left
      rfl
    | some ses =>
      by_cases hbr : ses.status = "waiting"
          ∧ (alistLookup st.connections userId).map Connection.role = some "agent"
      · have hst : alistLookup st.store.chatSessions sessionId = some ses := by
          unfold fetchSession Storage.getChatSession at hfe
          cases hcache : alistLookup st.sessions sessionId with
          | none => rw [hcache] at hfe; exact hfe
          | some v =>
            rw [hcache] at hfe
            have hv : v = ses := Option.some.inj hfe
            subst hv
            exact hcons sessionId v hcache
        rw [processChatMessage_assign_eq now userId sessionId content st ses ses hfe hbr hst]
        by_cases hk : k = sessionId
        · subst hk
          right
          constructor
          · rw [hst]
            simp [hbr.1]
          · dsimp only
            rw [alistLookup_insert_self]
            rfl
        · left
          dsimp only
          rw [alistLookup_insert_ne _ _ _ _ hk]
      · rw [processChatMessage_noassign_eq now userId sessionId content st ses hfe hbr]
        left
        rfl

/-- Witness for C4 amended, at the concrete fixtures: an `assign` and an
`end` on the waiting session, and the agent auto-assign path of
`processChatMessage` on `stateChat`. -/
theorem c4_witness :
    (alistLookup (assignSession 30 8 1 stateQuiet).2.1.store.chatSessions 1).map
        ChatSession.status = some "active" ∧
    (alistLookup (endChatSession 20 1 stateQuiet).2.1.store.chatSessions 1).map
        ChatSession.status = some "ended" ∧
    ((alistLookup (processChatMessage 30 7 1 "Hello" stateChat).2.1.store.chatSessions 1).map
        ChatSession.status = (alistLookup stateChat.store.chatSessions 1).map ChatSession.status
      ∨ ((alistLookup stateChat.store.chatSessions 1).map ChatSession.status = some "waiting"
         ∧ (alistLookup (processChatMessage 30 7 1
             "Hello" stateChat).2.1.store.chatSessions 1).map ChatSession.status
           = some "active")) := by
  refine ⟨?_, ?_, ?_⟩
  · exact (c4_lifecycle_transitions 30 8 1 stateQuiet).1 _ _ _ rfl
  · exact (c4_lifecycle_transitions 20 8 1 stateQuiet).2.1 _ _ _ rfl
  · exact (c4_lifecycle_transitions 30 8 1 stateChat).2.2 7 "Hello"
      (fun k v h => Option.noConfusion h) 1
